import Mathlib

/-!
Verification of the easy-timetracking payroll core (src/app.py, src/db.py).

Python `Decimal` values are modelled as exact rationals (`ℚ`): within the
default 28-significant-digit context, `Decimal` addition, subtraction and
multiplication on money-scale operands are exact, so `ℚ` arithmetic is a
faithful model on the whole domain the application exercises.
`Decimal.quantize(Decimal("0.01"), rounding=ROUND_HALF_UP)` rounds to a
multiple of 1/100 with ties resolved away from zero; that is `round_money`
below.  Timestamps are modelled as whole seconds (`ℤ`), matching the
second-resolution MySQL DATETIME columns the sessions are stored in.
-/

namespace TimeTracking

/-- Model of `Decimal.quantize(Decimal("0.01"), rounding=ROUND_HALF_UP)`:
round to a multiple of 1/100, ties away from zero (src/app.py `_round_money`). -/
def round_money (q : ℚ) : ℚ :=
  if 0 ≤ q then (⌊q * 100 + 1 / 2⌋ : ℚ) / 100
  else -((⌊-q * 100 + 1 / 2⌋ : ℚ) / 100)

/-- Model of `_normalize_pay_type` (src/app.py): anything other than the two
recognized literals, `None` included, normalizes to `"hourly"`. -/
def normalize_pay_type (value : Option String) : String :=
  match value with
  | some "hourly" => "hourly"
  | some "salary" => "salary"
  | _ => "hourly"

/-- The dictionary returned by `_calculate_payroll_amounts` (src/app.py). -/
structure PayrollAmounts where
  pay_type : String
  base_pay : ℚ
  overtime_rate : ℚ
  overtime_pay : ℚ
  gross_pay : ℚ
  tax_amount : ℚ
  social_amount : ℚ
  pension_amount : ℚ
  other_deduction_amount : ℚ
  total_deductions : ℚ
  net_pay : ℚ
  employer_social_amount : ℚ
  employer_pension_amount : ℚ
  employer_other_amount : ℚ
  deriving Repr, DecidableEq

/-- Model of `_calculate_payroll_amounts` (src/app.py): intermediates are
exact; every monetary output field is quantized by `round_money` on return. -/
def calculate_payroll_amounts (pay_type : String)
    (hourly_rate salary_monthly total_hours overtime_hours overtime_multiplier
     bonus_amount allowance_amount tax_rate social_rate pension_rate other_rate
     employer_social_rate employer_pension_rate employer_other_rate : ℚ) :
    PayrollAmounts :=
  let normalized_type := normalize_pay_type (some pay_type)
  let base_pay := if normalized_type = "salary" then salary_monthly
                  else hourly_rate * total_hours
  let overtime_rate := if 0 < hourly_rate then hourly_rate * overtime_multiplier
                       else 0
  let overtime_pay := overtime_hours * overtime_rate
  let gross_pay := base_pay + overtime_pay + bonus_amount + allowance_amount
  let tax_amount := gross_pay * tax_rate
  let social_amount := gross_pay * social_rate
  let pension_amount := gross_pay * pension_rate
  let other_deduction_amount := gross_pay * other_rate
  let total_deductions := tax_amount + social_amount + pension_amount +
                          other_deduction_amount
  let net_pay := gross_pay - total_deductions
  let employer_social_amount := gross_pay * employer_social_rate
  let employer_pension_amount := gross_pay * employer_pension_rate
  let employer_other_amount := gross_pay * employer_other_rate
  { pay_type := normalized_type
    base_pay := round_money base_pay
    overtime_rate := round_money overtime_rate
    overtime_pay := round_money overtime_pay
    gross_pay := round_money gross_pay
    tax_amount := round_money tax_amount
    social_amount := round_money social_amount
    pension_amount := round_money pension_amount
    other_deduction_amount := round_money other_deduction_amount
    total_deductions := round_money total_deductions
    net_pay := round_money net_pay
    employer_social_amount := round_money employer_social_amount
    employer_pension_amount := round_money employer_pension_amount
    employer_other_amount := round_money employer_other_amount }

/-- One row of the `sessions` table as the Hours Aggregator sees it:
timestamps in whole seconds, `end_time` nullable (src/db.py schema). -/
structure SessionRow where
  start_time : ℤ
  end_time : Option ℤ
  deriving Repr, DecidableEq

/-- Model of `_calculate_total_seconds` (src/app.py): effective end is
`end_time` when present, else `now` (Python `row["end_time"] or now`; a
datetime is always truthy, only `None` falls through); a row with
`end < start` is skipped by `continue`. -/
def calculate_total_seconds : List SessionRow → ℤ → ℤ
  | [], _ => 0
  | row :: rest, now =>
      let start := row.start_time
      let stop := row.end_time.getD now
      if stop < start then calculate_total_seconds rest now
      else (stop - start) + calculate_total_seconds rest now

/-- One row of the `paychecks` table (src/db.py schema).  Fields are
`Option`-valued: the SQL aggregate in `_fetch_paycheck_year_totals` gives
`SUM` null-as-zero semantics, and `_build_payroll_context` reads the row as a
dict whose values may be NULL. -/
structure PaycheckRow where
  user_id : ℤ
  period_year : ℤ
  period_month : ℤ
  pay_type : Option String
  hourly_rate : Option ℚ
  salary_monthly : Option ℚ
  total_hours : Option ℚ
  overtime_hours : Option ℚ
  overtime_multiplier : Option ℚ
  base_pay : Option ℚ
  overtime_pay : Option ℚ
  bonus_amount : Option ℚ
  allowance_amount : Option ℚ
  gross_pay : Option ℚ
  tax_rate : Option ℚ
  social_rate : Option ℚ
  pension_rate : Option ℚ
  other_rate : Option ℚ
  tax_amount : Option ℚ
  social_amount : Option ℚ
  pension_amount : Option ℚ
  other_deduction_amount : Option ℚ
  total_deductions : Option ℚ
  net_pay : Option ℚ
  employer_social_rate : Option ℚ
  employer_pension_rate : Option ℚ
  employer_other_rate : Option ℚ
  status : Option String
  payment_method : Option String
  deriving Repr, DecidableEq

/-- Pay-configuration columns of a `users` row (src/db.py schema), as read by
`_build_payroll_context` through `_fetch_user_by_id`. -/
structure UserRow where
  pay_type : Option String
  hourly_rate : Option ℚ
  salary_monthly : Option ℚ
  overtime_multiplier : Option ℚ
  tax_rate : Option ℚ
  social_rate : Option ℚ
  pension_rate : Option ℚ
  other_rate : Option ℚ
  employer_social_rate : Option ℚ
  employer_pension_rate : Option ℚ
  employer_other_rate : Option ℚ
  payment_method : Option String
  deriving Repr, DecidableEq

/-- Model of `_to_decimal` (src/app.py): `None` becomes the default, any
present decimal value passes through. -/
def to_decimal (value : Option ℚ) (default : ℚ) : ℚ :=
  value.getD default

/-- The row returned by `_fetch_paycheck_year_totals` (src/app.py): one
`COALESCE(SUM(column), 0)` per field. -/
structure YearTotals where
  ytd_base_pay : ℚ
  ytd_overtime_pay : ℚ
  ytd_bonus : ℚ
  ytd_allowance : ℚ
  ytd_gross : ℚ
  ytd_tax : ℚ
  ytd_social : ℚ
  ytd_pension : ℚ
  ytd_other : ℚ
  ytd_deductions : ℚ
  ytd_net : ℚ
  ytd_hours : ℚ
  deriving Repr, DecidableEq

/-- The all-zero totals row: what `COALESCE(SUM(...), 0)` yields when no
paycheck row matches. -/
def YearTotals.zero : YearTotals :=
  { ytd_base_pay := 0, ytd_overtime_pay := 0, ytd_bonus := 0, ytd_allowance := 0
    ytd_gross := 0, ytd_tax := 0, ytd_social := 0, ytd_pension := 0
    ytd_other := 0, ytd_deductions := 0, ytd_net := 0, ytd_hours := 0 }

/-- Model of `_fetch_paycheck_year_totals` (src/app.py): the `paychecks`
table is a list of rows; the WHERE clause keeps rows with this `user_id` and
`period_year`; each field is summed with SQL `SUM` semantics (NULL ignored,
empty aggregate coalesced to 0). -/
def fetch_paycheck_year_totals : List PaycheckRow → ℤ → ℤ → YearTotals
  | [], _, _ => YearTotals.zero
  | row :: rest, user_id, year =>
      let acc := fetch_paycheck_year_totals rest user_id year
      if row.user_id = user_id ∧ row.period_year = year then
        { ytd_base_pay := row.base_pay.getD 0 + acc.ytd_base_pay
          ytd_overtime_pay := row.overtime_pay.getD 0 + acc.ytd_overtime_pay
          ytd_bonus := row.bonus_amount.getD 0 + acc.ytd_bonus
          ytd_allowance := row.allowance_amount.getD 0 + acc.ytd_allowance
          ytd_gross := row.gross_pay.getD 0 + acc.ytd_gross
          ytd_tax := row.tax_amount.getD 0 + acc.ytd_tax
          ytd_social := row.social_amount.getD 0 + acc.ytd_social
          ytd_pension := row.pension_amount.getD 0 + acc.ytd_pension
          ytd_other := row.other_deduction_amount.getD 0 + acc.ytd_other
          ytd_deductions := row.total_deductions.getD 0 + acc.ytd_deductions
          ytd_net := row.net_pay.getD 0 + acc.ytd_net
          ytd_hours := row.total_hours.getD 0 + acc.ytd_hours }
      else acc

/-- Model of the monetary core of `_build_payroll_context` (src/app.py):
every configuration value is read from `(paycheck or user)` — the stored
paycheck row wins whenever one exists — while `overtime_hours`,
`bonus_amount` and `allowance_amount` come from `(paycheck or {})`; the
amounts are then recomputed by `_calculate_payroll_amounts`.  The purely
presentational string formatting of the context is not modelled. -/
def build_payroll_context (user : UserRow) (total_hours : ℚ)
    (paycheck : Option PaycheckRow) : PayrollAmounts :=
  let pay_type := normalize_pay_type
    (match paycheck with | some p => p.pay_type | none => user.pay_type)
  let hourly_rate := to_decimal
    (match paycheck with | some p => p.hourly_rate | none => user.hourly_rate) 0
  let salary_monthly := to_decimal
    (match paycheck with | some p => p.salary_monthly | none => user.salary_monthly) 0
  let overtime_multiplier := to_decimal
    (match paycheck with | some p => p.overtime_multiplier | none => user.overtime_multiplier) (5 / 4)
  let overtime_hours := to_decimal
    (match paycheck with | some p => p.overtime_hours | none => none) 0
  let bonus_amount := to_decimal
    (match paycheck with | some p => p.bonus_amount | none => none) 0
  let allowance_amount := to_decimal
    (match paycheck with | some p => p.allowance_amount | none => none) 0
  let tax_rate := to_decimal
    (match paycheck with | some p => p.tax_rate | none => user.tax_rate) 0
  let social_rate := to_decimal
    (match paycheck with | some p => p.social_rate | none => user.social_rate) 0
  let pension_rate := to_decimal
    (match paycheck with | some p => p.pension_rate | none => user.pension_rate) 0
  let other_rate := to_decimal
    (match paycheck with | some p => p.other_rate | none => user.other_rate) 0
  let employer_social_rate := to_decimal
    (match paycheck with | some p => p.employer_social_rate | none => user.employer_social_rate) 0
  let employer_pension_rate := to_decimal
    (match paycheck with | some p => p.employer_pension_rate | none => user.employer_pension_rate) 0
  let employer_other_rate := to_decimal
    (match paycheck with | some p => p.employer_other_rate | none => user.employer_other_rate) 0
  calculate_payroll_amounts pay_type hourly_rate salary_monthly total_hours
    overtime_hours overtime_multiplier bonus_amount allowance_amount tax_rate
    social_rate pension_rate other_rate employer_social_rate
    employer_pension_rate employer_other_rate

/-- Model of the hours selection in `payroll_page` (src/app.py): live hours
are `total_seconds / 3600` from the period's sessions, but when a saved
paycheck has a non-NULL `total_hours` the stored value is used instead. -/
def payroll_total_hours (sessions : List SessionRow) (now : ℤ)
    (paycheck : Option PaycheckRow) : ℚ :=
  let total_seconds := calculate_total_seconds sessions now
  let live := (total_seconds : ℚ) / 3600
  match paycheck with
  | some p => match p.total_hours with | some h => h | none => live
  | none => live

/-- Numeric value of a digit run (used by the `int()` / `Decimal()` models). -/
def digit_fold (cs : List Char) : ℕ :=
  cs.foldl (fun a c => 10 * a + (c.toNat - 48)) 0

/-- A nonempty all-digit run parses to its value; anything else fails. -/
def digits_to_nat? (cs : List Char) : Option ℕ :=
  if cs ≠ [] ∧ cs.all Char.isDigit then some (digit_fold cs) else none

/-- Leading and trailing whitespace removal, as Python `int()`/`Decimal()`
allow around a numeric literal. -/
def strip_ws (cs : List Char) : List Char :=
  ((cs.dropWhile Char.isWhitespace).reverse.dropWhile Char.isWhitespace).reverse

/-- Model of Python `int(str)` on ASCII literals: optional surrounding
whitespace, optional sign, then a nonempty digit run; everything else raises
`ValueError` (here: `none`).  Underscore digit separators and non-ASCII
digits, which the application never produces, are not modelled. -/
def python_int_core (cs : List Char) : Option ℤ :=
  match strip_ws cs with
  | '+' :: rest => (digits_to_nat? rest).map fun n => (n : ℤ)
  | '-' :: rest => (digits_to_nat? rest).map fun n => -(n : ℤ)
  | rest => (digits_to_nat? rest).map fun n => (n : ℤ)

/-- Unsigned part of a `Decimal` literal: digits with one optional point,
at least one digit overall (`"1."`, `".5"`, `"1.5"`, `"15"`).  Returns the
coefficient and the number of fraction digits — the (coefficient, exponent)
shape `Decimal` itself stores. -/
def decimal_mantissa? (cs : List Char) : Option (ℕ × ℕ) :=
  let ip := cs.takeWhile (fun c => c ≠ '.')
  match cs.dropWhile (fun c => c ≠ '.') with
  | [] => (digits_to_nat? ip).map fun n => (n, 0)
  | _ :: fp =>
      if (ip ++ fp ≠ [] ∧ (ip ++ fp).all Char.isDigit : Prop) then
        some (digit_fold (ip ++ fp), fp.length)
      else none

/-- Sign and mantissa of a `Decimal` literal: optional surrounding
whitespace, optional sign, then the digit part (`true` marks a negative
sign, as in `Decimal`'s own sign slot). -/
def python_decimal_repr (cs : List Char) : Option (Bool × ℕ × ℕ) :=
  match strip_ws cs with
  | [] => none
  | c :: rest =>
      if c = '+' then (decimal_mantissa? rest).map fun m => (false, m)
      else if c = '-' then (decimal_mantissa? rest).map fun m => (true, m)
      else (decimal_mantissa? (c :: rest)).map fun m => (false, m)

/-- Model of Python `Decimal(str)` on finite ASCII decimal literals, as the
exact rational it denotes.  Exponents, underscores and the special values
(`NaN`, `Infinity`), which the admin form never produces, are not modelled;
any other malformed literal raises `InvalidOperation` (here: `none`). -/
def python_decimal_core (cs : List Char) : Option ℚ :=
  (python_decimal_repr cs).map fun r =>
    (if r.1 then -1 else 1) * (r.2.1 : ℚ) / 10 ^ r.2.2

/-- Model of `_parse_optional_decimal` (src/app.py): `None` or the empty
string give `None`; an unparseable literal's exception is swallowed to
`None`; otherwise the parsed decimal. -/
def parse_optional_decimal (value : Option String) : Option ℚ :=
  match value with
  | none => none
  | some s => if s = "" then none else python_decimal_core s.data

/-- Python `x or default` on an optional decimal: `None` and `Decimal(0)`
are both falsy, so both fall through to the default (as in
`admin_update_user`, src/app.py). -/
def py_or (value : Option ℚ) (default : ℚ) : ℚ :=
  match value with
  | none => default
  | some q => if q = 0 then default else q

/-- Python `s.split("-", 1)` followed by two-element unpacking: `none` when
the string has no dash (the unpacking `ValueError`), else the parts around
the first dash. -/
def split_first_dash : List Char → Option (List Char × List Char)
  | [] => none
  | c :: rest =>
      if c = '-' then some ([], rest)
      else (split_first_dash rest).map fun p => (c :: p.1, p.2)

/-- Model of `_parse_month_param` (src/app.py): falsy input (absent or
empty) gives no filter; otherwise split at the first dash (no dash: the
unpack raises `ValueError`, caught), parse both parts with `int()` (failure
caught), and keep the pair only when the month lies in 1..12. -/
def parse_month_param (month_value : Option String) : Option (ℤ × ℤ) :=
  match month_value with
  | none => none
  | some s =>
      if s = "" then none
      else
        match split_first_dash s.data with
        | none => none
        | some (year_str, month_str) =>
            match python_int_core year_str, python_int_core month_str with
            | some year, some month =>
                if 1 ≤ month ∧ month ≤ 12 then some (year, month) else none
            | _, _ => none

/-- Model of the period selection in `payroll_page` (src/app.py):
`parsed if parsed else (now.year, now.month)`. -/
def resolve_period (month : Option String) (now_year now_month : ℤ) : ℤ × ℤ :=
  (parse_month_param month).getD (now_year, now_month)

/-- The raw pay-related form fields of `admin_update_user` (src/app.py),
each an optional string as FastAPI delivers it. -/
structure AdminPayForm where
  pay_type : Option String
  hourly_rate : Option String
  salary_monthly : Option String
  overtime_multiplier : Option String
  tax_rate : Option String
  social_rate : Option String
  pension_rate : Option String
  other_rate : Option String
  employer_social_rate : Option String
  employer_pension_rate : Option String
  employer_other_rate : Option String
  deriving Repr, DecidableEq

/-- The pay-related values `admin_update_user` writes to the `users` row. -/
structure UserPayUpdate where
  pay_type : String
  hourly_rate : Option ℚ
  salary_monthly : Option ℚ
  overtime_multiplier : ℚ
  tax_rate : ℚ
  social_rate : ℚ
  pension_rate : ℚ
  other_rate : ℚ
  employer_social_rate : ℚ
  employer_pension_rate : ℚ
  employer_other_rate : ℚ
  deriving Repr, DecidableEq

/-- Model of the input coercion in `admin_update_user` (src/app.py): the
pay type is normalized, `hourly_rate`/`salary_monthly` stay `None` when
absent or unparseable, the seven rates fall back to `0` and the overtime
multiplier to `1.25` via Python `or`.  The route then always performs the
UPDATE with exactly these values (no validation branch can reject them). -/
def admin_update_user_values (form : AdminPayForm) : UserPayUpdate :=
  { pay_type := normalize_pay_type form.pay_type
    hourly_rate := parse_optional_decimal form.hourly_rate
    salary_monthly := parse_optional_decimal form.salary_monthly
    overtime_multiplier := py_or (parse_optional_decimal form.overtime_multiplier) (5 / 4)
    tax_rate := py_or (parse_optional_decimal form.tax_rate) 0
    social_rate := py_or (parse_optional_decimal form.social_rate) 0
    pension_rate := py_or (parse_optional_decimal form.pension_rate) 0
    other_rate := py_or (parse_optional_decimal form.other_rate) 0
    employer_social_rate := py_or (parse_optional_decimal form.employer_social_rate) 0
    employer_pension_rate := py_or (parse_optional_decimal form.employer_pension_rate) 0
    employer_other_rate := py_or (parse_optional_decimal form.employer_other_rate) 0 }

/-! ## Helper lemmas about the money rounding -/

lemma round_money_int_div (n : ℤ) : round_money ((n : ℚ) / 100) = (n : ℚ) / 100 := by
  unfold round_money
  rcases le_or_lt 0 ((n : ℚ) / 100) with h | h
  · rw [if_pos h, div_mul_cancel₀ _ (by norm_num : (100 : ℚ) ≠ 0), Int.floor_int_add]
    norm_num
  · rw [if_neg (not_le.mpr h)]
    have h2 : -((n : ℚ) / 100) * 100 = ((-n : ℤ) : ℚ) := by push_cast; ring
    rw [h2, Int.floor_int_add]
    push_cast
    ring_nf

lemma round_money_exists_int (q : ℚ) : ∃ n : ℤ, round_money q = (n : ℚ) / 100 := by
  unfold round_money
  split
  · exact ⟨_, rfl⟩
  · exact ⟨-⌊-q * 100 + 1 / 2⌋, by push_cast; ring⟩

lemma round_money_idem (q : ℚ) : round_money (round_money q) = round_money q := by
  obtain ⟨n, hn⟩ := round_money_exists_int q
  rw [hn, round_money_int_div]

/-! ## Helper lemmas about splitting at the first dash -/

lemma split_first_dash_eq_some : ∀ {cs a b : List Char},
    split_first_dash cs = some (a, b) → cs = a ++ '-' :: b ∧ '-' ∉ a := by
  intro cs
  induction cs with
  | nil => intro a b h; simp [split_first_dash] at h
  | cons c rest ih =>
      intro a b h
      rw [split_first_dash] at h
      by_cases hc : c = '-'
      · rw [if_pos hc] at h
        simp only [Option.some.injEq, Prod.mk.injEq] at h
        obtain ⟨rfl, rfl⟩ := h
        subst hc
        simp
      · rw [if_neg hc] at h
        rcases hsp : split_first_dash rest with _ | ⟨p1, p2⟩ <;> rw [hsp] at h
        · simp at h
        · simp only [Option.map_some', Option.some.injEq, Prod.mk.injEq] at h
          obtain ⟨rfl, rfl⟩ := h
          obtain ⟨h1, h2⟩ := ih hsp
          refine ⟨by rw [List.cons_append, ← h1], ?_⟩
          simp only [List.mem_cons]
          rintro (hh | hh)
          · exact hc hh.symm
          · exact h2 hh

lemma split_first_dash_append {a : List Char} (b : List Char) (ha : '-' ∉ a) :
    split_first_dash (a ++ '-' :: b) = some (a, b) := by
  induction a with
  | nil => simp [split_first_dash]
  | cons c rest ih =>
      have hc : c ≠ '-' := fun h => ha (h ▸ List.mem_cons_self c rest)
      rw [List.cons_append, split_first_dash, if_neg hc,
        ih fun h => ha (List.mem_cons_of_mem c h)]
      rfl

/-! ## Claim C1 -/

/-- Claim C1, counterexample to the literal statement: for a salaried input
whose `salary_monthly` is `5.005`, the returned `base_pay` is the rounded
`5.01`, not `salary_monthly` itself. -/
theorem C1_base_pay_literal_counterexample :
    (calculate_payroll_amounts "salary" 0 (1001 / 200) 0 0 0 0 0 0 0 0 0 0 0
      0).base_pay ≠ 1001 / 200 := by
  simp +decide only [calculate_payroll_amounts, normalize_pay_type, round_money]
  norm_num

/-- Claim C1 (amended): the returned `base_pay` is the round-half-up to 2
decimals of `salary_monthly` when the normalized pay type is `salary` and of
`hourly_rate * total_hours` otherwise; any pay type outside
`{hourly, salary}` (including `None`) normalizes to `hourly`; and `gross_pay`
is the round-half-up of `base_pay + overtime_pay + bonus + allowance`
computed on the unrounded intermediates. -/
theorem C1_base_and_gross_pay_rounded :
    (∀ (pt : String) (hr sm th oh om ba aa tr sr pr otr esr epr eor : ℚ),
      let r := calculate_payroll_amounts pt hr sm th oh om ba aa tr sr pr otr
        esr epr eor
      (normalize_pay_type (some pt) = "salary" → r.base_pay = round_money sm) ∧
      (normalize_pay_type (some pt) ≠ "salary" →
        r.base_pay = round_money (hr * th)) ∧
      r.pay_type = normalize_pay_type (some pt) ∧
      r.gross_pay = round_money
        ((if normalize_pay_type (some pt) = "salary" then sm else hr * th) +
          oh * (if 0 < hr then hr * om else 0) + ba + aa)) ∧
    (∀ v : Option String, v ≠ some "hourly" → v ≠ some "salary" →
      normalize_pay_type v = "hourly") := by
  constructor
  · intro pt hr sm th oh om ba aa tr sr pr otr esr epr eor
    refine ⟨fun h => ?_, fun h => ?_, rfl, rfl⟩
    · simp only [calculate_payroll_amounts, h, if_pos]
    · simp only [calculate_payroll_amounts, if_neg h]
  · intro v h1 h2
    unfold normalize_pay_type
    split
    · simp_all
    · simp_all
    · rfl

/-- Witness for `C1_base_and_gross_pay_rounded` at concrete inputs. -/
theorem C1_base_and_gross_pay_rounded_witness :
    (calculate_payroll_amounts "salary" 3 7 2 0 0 0 0 0 0 0 0 0 0 0).base_pay
      = round_money 7 ∧
    normalize_pay_type (some "weekly") = "hourly" := by
  exact ⟨(C1_base_and_gross_pay_rounded.1 "salary" 3 7 2 0 0 0 0 0 0 0 0 0 0
            0).1 (by decide),
         C1_base_and_gross_pay_rounded.2 (some "weekly") (by decide)
           (by decide)⟩

/-! ## Claim C2 -/

/-- Claim C2, counterexample to the literal statement: with
`hourly_rate = 2.001`, `total_hours = 5`, `tax_rate = 0.0004`, the returned
`net_pay` is `10.00` while re-rounding the returned rounded fields
`gross_pay - total_deductions = 10.01 - 0.00` gives `10.01`: `net_pay` is
computed from the unrounded intermediates, not from the returned fields. -/
theorem C2_net_pay_from_rounded_fields_counterexample :
    (calculate_payroll_amounts "hourly" (2001 / 1000) 0 5 0 0 0 0 (1 / 2500)
      0 0 0 0 0 0).net_pay ≠
    round_money
      ((calculate_payroll_amounts "hourly" (2001 / 1000) 0 5 0 0 0 0
          (1 / 2500) 0 0 0 0 0 0).gross_pay -
        (calculate_payroll_amounts "hourly" (2001 / 1000) 0 5 0 0 0 0
          (1 / 2500) 0 0 0 0 0 0).total_deductions) := by
  simp +decide only [calculate_payroll_amounts, normalize_pay_type, round_money]
  norm_num

/-- Claim C2 (amended): the returned `net_pay` is the round-half-up to 2
decimals of (unrounded gross pay − unrounded total deductions) — which can
differ by a cent from `round(gross_pay − total_deductions)` over the
returned rounded fields — and it is not floored at zero: a 200% tax rate
yields `net_pay = -100`. -/
theorem C2_net_pay_unrounded_difference :
    (∀ (pt : String) (hr sm th oh om ba aa tr sr pr otr esr epr eor : ℚ),
      let g := (if normalize_pay_type (some pt) = "salary" then sm
                else hr * th) + oh * (if 0 < hr then hr * om else 0) + ba + aa
      (calculate_payroll_amounts pt hr sm th oh om ba aa tr sr pr otr esr epr
        eor).net_pay = round_money (g - (g * tr + g * sr + g * pr + g * otr))) ∧
    (calculate_payroll_amounts "salary" 0 100 0 0 0 0 0 2 0 0 0 0 0
      0).net_pay = -100 ∧
    (-100 : ℚ) < 0 := by
  refine ⟨fun _ _ _ _ _ _ _ _ _ _ _ _ _ _ _ => rfl, ?_, by norm_num⟩
  simp +decide only [calculate_payroll_amounts, normalize_pay_type, round_money]
  norm_num

/-! ## Claim C3 -/

/-- Claim C3: `overtime_rate` is `hourly_rate * overtime_multiplier` when
`hourly_rate > 0` and `0` otherwise, `overtime_pay` is
`overtime_hours * overtime_rate` (each rounded half-up to 2 decimals on
output); both are independent of `pay_type` and of every deduction rate, and
a salaried employee with `hourly_rate = 20`, `overtime_hours = 10`,
multiplier `1.25` receives the nonzero `overtime_pay = 250`. -/
theorem C3_overtime_not_gated_by_pay_type :
    (∀ (pt : String) (hr sm th oh om ba aa tr sr pr otr esr epr eor : ℚ),
      (calculate_payroll_amounts pt hr sm th oh om ba aa tr sr pr otr esr epr
        eor).overtime_rate = round_money (if 0 < hr then hr * om else 0) ∧
      (calculate_payroll_amounts pt hr sm th oh om ba aa tr sr pr otr esr epr
        eor).overtime_pay =
          round_money (oh * (if 0 < hr then hr * om else 0))) ∧
    (∀ (pt pt' : String)
      (hr sm th oh om ba aa tr sr pr otr esr epr eor tr' sr' pr' otr' esr'
        epr' eor' : ℚ),
      (calculate_payroll_amounts pt hr sm th oh om ba aa tr sr pr otr esr epr
        eor).overtime_rate =
        (calculate_payroll_amounts pt' hr sm th oh om ba aa tr' sr' pr' otr'
          esr' epr' eor').overtime_rate ∧
      (calculate_payroll_amounts pt hr sm th oh om ba aa tr sr pr otr esr epr
        eor).overtime_pay =
        (calculate_payroll_amounts pt' hr sm th oh om ba aa tr' sr' pr' otr'
          esr' epr' eor').overtime_pay) ∧
    (calculate_payroll_amounts "salary" 20 5000 160 10 (5 / 4) 0 0 0 0 0 0 0 0
      0).overtime_pay = 250 ∧
    (250 : ℚ) ≠ 0 := by
  refine ⟨fun _ _ _ _ _ _ _ _ _ _ _ _ _ _ _ => ⟨rfl, rfl⟩,
          fun _ _ _ _ _ _ _ _ _ _ _ _ _ _ _ _ _ _ _ _ _ _ _ => ⟨rfl, rfl⟩,
          ?_, by norm_num⟩
  simp +decide only [calculate_payroll_amounts, normalize_pay_type, round_money]
  norm_num

/-! ## Claim C4 -/

/-- Claim C4: every monetary output field of the Payroll Calculator is a
fixed point of the 2-decimal round-half-up quantization, and the rounding
resolves the `0.125` tie upward to `0.13`, not to banker's `0.12`. -/
theorem C4_money_rounding_fixed_point :
    (∀ (pt : String) (hr sm th oh om ba aa tr sr pr otr esr epr eor : ℚ),
      let r := calculate_payroll_amounts pt hr sm th oh om ba aa tr sr pr otr
        esr epr eor
      round_money r.base_pay = r.base_pay ∧
      round_money r.overtime_rate = r.overtime_rate ∧
      round_money r.overtime_pay = r.overtime_pay ∧
      round_money r.gross_pay = r.gross_pay ∧
      round_money r.tax_amount = r.tax_amount ∧
      round_money r.social_amount = r.social_amount ∧
      round_money r.pension_amount = r.pension_amount ∧
      round_money r.other_deduction_amount = r.other_deduction_amount ∧
      round_money r.total_deductions = r.total_deductions ∧
      round_money r.net_pay = r.net_pay ∧
      round_money r.employer_social_amount = r.employer_social_amount ∧
      round_money r.employer_pension_amount = r.employer_pension_amount ∧
      round_money r.employer_other_amount = r.employer_other_amount) ∧
    round_money (1 / 8) = 13 / 100 ∧ (13 / 100 : ℚ) ≠ 12 / 100 := by
  refine ⟨?_, ?_, by norm_num⟩
  · intro pt hr sm th oh om ba aa tr sr pr otr esr epr eor
    simp only [calculate_payroll_amounts]
    exact ⟨round_money_idem _, round_money_idem _, round_money_idem _,
      round_money_idem _, round_money_idem _, round_money_idem _,
      round_money_idem _, round_money_idem _, round_money_idem _,
      round_money_idem _, round_money_idem _, round_money_idem _,
      round_money_idem _⟩
  · rw [round_money, if_pos (by norm_num : (0 : ℚ) ≤ 1 / 8)]
    norm_num

/-! ## Claim C5 -/

/-- Claim C5: the Hours Aggregator returns the sum over the sessions of
`max 0 (effective_end - start_time)` in whole seconds, where the effective
end is `end_time` when present and `now` otherwise; a session whose end is
before its start contributes exactly 0 (silently), and an open session
contributes `now - start_time`. -/
theorem C5_hours_aggregator_sum :
    (∀ (sessions : List SessionRow) (now : ℤ),
      calculate_total_seconds sessions now
        = (sessions.map fun r => max 0 (r.end_time.getD now - r.start_time)).sum) ∧
    (∀ (now start e : ℤ), e < start →
      calculate_total_seconds [⟨start, some e⟩] now = 0) ∧
    (∀ (now start : ℤ), start ≤ now →
      calculate_total_seconds [⟨start, none⟩] now = now - start) := by
  refine ⟨?_, ?_, ?_⟩
  · intro sessions now
    induction sessions with
    | nil => rfl
    | cons r rest ih =>
        simp only [calculate_total_seconds, List.map_cons, List.sum_cons]
        rcases lt_or_ge (r.end_time.getD now) r.start_time with h | h
        · rw [if_pos h, ih]
          omega
        · rw [if_neg (not_lt.mpr h), ih]
          omega
  · intro now start e h
    simp only [calculate_total_seconds, Option.getD_some, if_pos h]
  · intro now start h
    simp only [calculate_total_seconds, Option.getD_none, if_neg (not_lt.mpr h)]
    ring

/-- Witness for `C5_hours_aggregator_sum`: an end-before-start session
contributes 0; an open session counts up to `now`. -/
theorem C5_hours_aggregator_sum_witness :
    calculate_total_seconds [⟨10, some 3⟩] 100 = 0 ∧
    calculate_total_seconds [⟨10, none⟩] 100 = 100 - 10 := by
  exact ⟨C5_hours_aggregator_sum.2.1 100 10 3 (by decide),
         C5_hours_aggregator_sum.2.2 100 10 (by decide)⟩

/-! ## Claim C6 -/

/-- A user whose current configuration has `tax_rate = 10%`. -/
def c6_user : UserRow :=
  { pay_type := some "salary", hourly_rate := none, salary_monthly := some 1000
    overtime_multiplier := none, tax_rate := some (1 / 10), social_rate := none
    pension_rate := none, other_rate := none, employer_social_rate := none
    employer_pension_rate := none, employer_other_rate := none
    payment_method := none }

/-- A stored paycheck whose frozen configuration snapshot has
`tax_rate = 25%`. -/
def c6_paycheck : PaycheckRow :=
  { user_id := 1, period_year := 2024, period_month := 3
    pay_type := some "salary", hourly_rate := none
    salary_monthly := some 1000, total_hours := some 160
    overtime_hours := none, overtime_multiplier := none, base_pay := none
    overtime_pay := none, bonus_amount := none, allowance_amount := none
    gross_pay := none, tax_rate := some (1 / 4), social_rate := none
    pension_rate := none, other_rate := none, tax_amount := none
    social_amount := none, pension_amount := none
    other_deduction_amount := none, total_deductions := none, net_pay := none
    employer_social_rate := none, employer_pension_rate := none
    employer_other_rate := none, status := some "draft"
    payment_method := none }

/-- Claim C6, counterexample to the literal statement: rendering a period
that has a saved paycheck computes `tax_amount = 250` from the paycheck's
frozen `tax_rate = 25%`, while recomputing from the user's current
configuration (`tax_rate = 10%`) would give `100` — the monetary fields are
not recomputed from the current configuration. -/
theorem C6_current_config_counterexample :
    (build_payroll_context c6_user 160 (some c6_paycheck)).tax_amount = 250 ∧
    (calculate_payroll_amounts (normalize_pay_type c6_user.pay_type)
      (to_decimal c6_user.hourly_rate 0) (to_decimal c6_user.salary_monthly 0)
      160 (to_decimal c6_paycheck.overtime_hours 0)
      (to_decimal c6_user.overtime_multiplier (5 / 4))
      (to_decimal c6_paycheck.bonus_amount 0)
      (to_decimal c6_paycheck.allowance_amount 0)
      (to_decimal c6_user.tax_rate 0) (to_decimal c6_user.social_rate 0)
      (to_decimal c6_user.pension_rate 0) (to_decimal c6_user.other_rate 0)
      (to_decimal c6_user.employer_social_rate 0)
      (to_decimal c6_user.employer_pension_rate 0)
      (to_decimal c6_user.employer_other_rate 0)).tax_amount = 100 ∧
    (250 : ℚ) ≠ 100 := by
  refine ⟨?_, ?_, by norm_num⟩
  · simp +decide only [build_payroll_context, c6_user, c6_paycheck,
      calculate_payroll_amounts, normalize_pay_type, to_decimal, round_money,
      Option.getD_some, Option.getD_none]
    norm_num
  · simp +decide only [c6_user, c6_paycheck, calculate_payroll_amounts,
      normalize_pay_type, to_decimal, round_money, Option.getD_some,
      Option.getD_none]
    norm_num

/-- Claim C6 (amended): when a saved paycheck exists, rendering the period
recomputes every monetary field through the Payroll Calculator from the
configuration snapshot frozen in the stored paycheck (not the user's current
configuration), and uses the paycheck's stored `total_hours` instead of the
live session recomputation, falling back to live hours only when the stored
value is NULL. -/
theorem C6_stored_paycheck_config_and_hours :
    (∀ (user : UserRow) (hours : ℚ) (p : PaycheckRow),
      build_payroll_context user hours (some p) =
        calculate_payroll_amounts (normalize_pay_type p.pay_type)
          (to_decimal p.hourly_rate 0) (to_decimal p.salary_monthly 0) hours
          (to_decimal p.overtime_hours 0)
          (to_decimal p.overtime_multiplier (5 / 4))
          (to_decimal p.bonus_amount 0) (to_decimal p.allowance_amount 0)
          (to_decimal p.tax_rate 0) (to_decimal p.social_rate 0)
          (to_decimal p.pension_rate 0) (to_decimal p.other_rate 0)
          (to_decimal p.employer_social_rate 0)
          (to_decimal p.employer_pension_rate 0)
          (to_decimal p.employer_other_rate 0)) ∧
    (∀ (sessions : List SessionRow) (now : ℤ) (p : PaycheckRow) (h : ℚ),
      p.total_hours = some h → payroll_total_hours sessions now (some p) = h) ∧
    (∀ (sessions : List SessionRow) (now : ℤ) (p : PaycheckRow),
      p.total_hours = none →
      payroll_total_hours sessions now (some p)
        = (calculate_total_seconds sessions now : ℚ) / 3600) := by
  refine ⟨fun _ _ _ => rfl, ?_, ?_⟩
  · intro sessions now p h hp
    simp [payroll_total_hours, hp]
  · intro sessions now p hp
    simp [payroll_total_hours, hp]

/-- Witness for `C6_stored_paycheck_config_and_hours`: stored hours win over
the live recomputation. -/
theorem C6_stored_paycheck_config_and_hours_witness :
    payroll_total_hours [] 0 (some c6_paycheck) = 160 := by
  exact C6_stored_paycheck_config_and_hours.2.1 [] 0 c6_paycheck 160 rfl

/-! ## Claim C7 -/

/-- Claim C7: each Year-To-Date field equals the sum of the corresponding
stored paycheck field over exactly the rows that exist for that
(user, year), with NULL summed as zero; a table with no matching row (in
particular, a month with no saved paycheck) contributes the all-zero
totals — nothing is recomputed from sessions. -/
theorem C7_ytd_sums_stored_paychecks :
    (∀ (table : List PaycheckRow) (u y : ℤ),
      let rows := table.filter fun r => r.user_id = u ∧ r.period_year = y
      fetch_paycheck_year_totals table u y =
        { ytd_base_pay := (rows.map fun r => r.base_pay.getD 0).sum
          ytd_overtime_pay := (rows.map fun r => r.overtime_pay.getD 0).sum
          ytd_bonus := (rows.map fun r => r.bonus_amount.getD 0).sum
          ytd_allowance := (rows.map fun r => r.allowance_amount.getD 0).sum
          ytd_gross := (rows.map fun r => r.gross_pay.getD 0).sum
          ytd_tax := (rows.map fun r => r.tax_amount.getD 0).sum
          ytd_social := (rows.map fun r => r.social_amount.getD 0).sum
          ytd_pension := (rows.map fun r => r.pension_amount.getD 0).sum
          ytd_other := (rows.map fun r => r.other_deduction_amount.getD 0).sum
          ytd_deductions := (rows.map fun r => r.total_deductions.getD 0).sum
          ytd_net := (rows.map fun r => r.net_pay.getD 0).sum
          ytd_hours := (rows.map fun r => r.total_hours.getD 0).sum }) ∧
    (∀ (table : List PaycheckRow) (u y : ℤ),
      (∀ r ∈ table, ¬(r.user_id = u ∧ r.period_year = y)) →
      fetch_paycheck_year_totals table u y = YearTotals.zero) := by
  constructor
  · intro table u y
    induction table with
    | nil => rfl
    | cons row rest ih =>
        simp only [fetch_paycheck_year_totals]
        by_cases h : row.user_id = u ∧ row.period_year = y
        · rw [if_pos h, ih]
          simp [List.filter_cons, h]
        · rw [if_neg h, ih]
          simp [List.filter_cons, h]
  · intro table u y h
    induction table with
    | nil => rfl
    | cons row rest ih =>
        simp only [fetch_paycheck_year_totals]
        rw [if_neg (h row (List.mem_cons_self row rest))]
        exact ih fun r hr => h r (List.mem_cons_of_mem row hr)

/-- Witness for `C7_ytd_sums_stored_paychecks`: with no stored paycheck rows
at all, the YTD totals are all zero. -/
theorem C7_ytd_sums_stored_paychecks_witness :
    fetch_paycheck_year_totals [] 1 2024 = YearTotals.zero := by
  exact C7_ytd_sums_stored_paychecks.2 [] 1 2024 (by simp)

/-! ## Claim C8 -/

/-- Claim C8: the month selector parser accepts exactly strings made of an
integer year part, a dash, and an integer month part in 1..12 (returning
that pair), and returns no filter on every other input — absent input,
no dash, non-integer parts, month out of range — never raising (the model is
total; the `ValueError` paths of the source are the `none` branches); the
caller then falls back to the current period. -/
theorem C8_month_param_parsing :
    (∀ (s : String) (y m : ℤ), parse_month_param (some s) = some (y, m) →
      (1 ≤ m ∧ m ≤ 12) ∧ ∃ a b : List Char, s.data = a ++ '-' :: b ∧
        '-' ∉ a ∧ python_int_core a = some y ∧ python_int_core b = some m) ∧
    (∀ (a b : List Char) (y m : ℤ), '-' ∉ a → python_int_core a = some y →
      python_int_core b = some m → 1 ≤ m → m ≤ 12 →
      parse_month_param (some (String.mk (a ++ '-' :: b))) = some (y, m)) ∧
    parse_month_param none = none ∧
    (∀ (v : Option String) (ny nm : ℤ), parse_month_param v = none →
      resolve_period v ny nm = (ny, nm)) := by
  refine ⟨?_, ?_, rfl, ?_⟩
  · intro s y m h
    rw [parse_month_param] at h
    split at h
    · exact absurd h (by simp)
    · split at h
      · exact absurd h (by simp)
      · rename_i year_str month_str heq
        split at h
        · rename_i year month hy hm
          split at h
          · rename_i hrange
            simp only [Option.some.injEq, Prod.mk.injEq] at h
            obtain ⟨rfl, rfl⟩ := h
            obtain ⟨hdata, hnot⟩ := split_first_dash_eq_some heq
            exact ⟨hrange, year_str, month_str, hdata, hnot, hy, hm⟩
          · exact absurd h (by simp)
        · exact absurd h (by simp)
  · intro a b y m hna hya hmb h1 h2
    rw [parse_month_param]
    rw [if_neg (by
      intro hs
      have : a ++ '-' :: b = ([] : List Char) := congrArg String.data hs
      simp at this)]
    have hd : (String.mk (a ++ '-' :: b)).data = a ++ '-' :: b := rfl
    rw [hd, split_first_dash_append b hna]
    simp only [hya, hmb]
    rw [if_pos ⟨h1, h2⟩]
  · intro v ny nm h
    rw [resolve_period, h]
    rfl

/-- Witness for `C8_month_param_parsing`: the well-formed selector
`"2024-07"` parses to `(2024, 7)`. -/
theorem C8_month_param_parsing_witness :
    parse_month_param (some (String.mk ("2024".data ++ '-' :: "07".data)))
      = some (2024, 7) := by
  exact C8_month_param_parsing.2.1 "2024".data "07".data 2024 7 (by decide)
    (by decide) (by decide) (by decide) (by decide)

/-! ## Claim C9 -/

/-- Claim C9: in the admin user-save route, an absent or unparseable decimal
form field is silently coerced — the four employee deduction rates and the
three employer rates default to 0, the overtime multiplier to 1.25, and
`hourly_rate` / `salary_monthly` to NULL — the coercion is total (the write
always proceeds with these values), and the Payroll Calculator evaluates the
fully-defaulted configuration to a well-defined all-zero breakdown rather
than failing. -/
theorem C9_admin_form_coercion_defaults :
    (∀ f : AdminPayForm,
      (parse_optional_decimal f.hourly_rate = none →
        (admin_update_user_values f).hourly_rate = none) ∧
      (parse_optional_decimal f.salary_monthly = none →
        (admin_update_user_values f).salary_monthly = none) ∧
      (parse_optional_decimal f.overtime_multiplier = none →
        (admin_update_user_values f).overtime_multiplier = 5 / 4) ∧
      (parse_optional_decimal f.tax_rate = none →
        (admin_update_user_values f).tax_rate = 0) ∧
      (parse_optional_decimal f.social_rate = none →
        (admin_update_user_values f).social_rate = 0) ∧
      (parse_optional_decimal f.pension_rate = none →
        (admin_update_user_values f).pension_rate = 0) ∧
      (parse_optional_decimal f.other_rate = none →
        (admin_update_user_values f).other_rate = 0) ∧
      (parse_optional_decimal f.employer_social_rate = none →
        (admin_update_user_values f).employer_social_rate = 0) ∧
      (parse_optional_decimal f.employer_pension_rate = none →
        (admin_update_user_values f).employer_pension_rate = 0) ∧
      (parse_optional_decimal f.employer_other_rate = none →
        (admin_update_user_values f).employer_other_rate = 0)) ∧
    parse_optional_decimal none = none ∧
    parse_optional_decimal (some "") = none ∧
    parse_optional_decimal (some "abc") = none ∧
    admin_update_user_values
      ⟨none, none, none, none, none, none, none, none, none, none, none⟩
      = ⟨"hourly", none, none, 5 / 4, 0, 0, 0, 0, 0, 0, 0⟩ ∧
    calculate_payroll_amounts "hourly" 0 0 0 0 (5 / 4) 0 0 0 0 0 0 0 0 0
      = ⟨"hourly", 0, 0, 0, 0, 0, 0, 0, 0, 0, 0, 0, 0, 0⟩ := by
  refine ⟨?_, rfl, by decide, by decide, rfl, ?_⟩
  · intro f
    refine ⟨fun h => ?_, fun h => ?_, fun h => ?_, fun h => ?_, fun h => ?_,
      fun h => ?_, fun h => ?_, fun h => ?_, fun h => ?_, fun h => ?_⟩ <;>
      simp [admin_update_user_values, h, py_or]
  · simp +decide only [calculate_payroll_amounts, normalize_pay_type,
      round_money, PayrollAmounts.mk.injEq]
    norm_num

/-- Witness for `C9_admin_form_coercion_defaults`: a form whose rate fields
hold unparseable text still coerces to the defaults. -/
theorem C9_admin_form_coercion_defaults_witness :
    (admin_update_user_values
      ⟨some "salary", some "abc", none, some "x", some "y", none, none, none,
        none, none, none⟩).tax_rate = 0 ∧
    (admin_update_user_values
      ⟨some "salary", some "abc", none, some "x", some "y", none, none, none,
        none, none, none⟩).hourly_rate = none := by
  exact ⟨(C9_admin_form_coercion_defaults.1
            ⟨some "salary", some "abc", none, some "x", some "y", none, none,
              none, none, none, none⟩).2.2.2.1 (by decide),
         (C9_admin_form_coercion_defaults.1
            ⟨some "salary", some "abc", none, some "x", some "y", none, none,
              none, none, none, none⟩).1 (by decide)⟩

/-! ## Claim C10 -/

/-- Claim C10: the returned `total_deductions` is the round-half-up to 2
decimals of the exact sum of the four unrounded deduction terms (each the
unrounded gross times its rate); because the four deduction fields are
rounded independently, there is an input — gross 5, all four rates 0.001 —
where `total_deductions = 0.02` differs from the `0.04` sum of the four
returned rounded deduction fields. -/
theorem C10_total_deductions_independent_rounding :
    (∀ (pt : String) (hr sm th oh om ba aa tr sr pr otr esr epr eor : ℚ),
      let g := (if normalize_pay_type (some pt) = "salary" then sm
                else hr * th) + oh * (if 0 < hr then hr * om else 0) + ba + aa
      (calculate_payroll_amounts pt hr sm th oh om ba aa tr sr pr otr esr epr
        eor).total_deductions
        = round_money (g * tr + g * sr + g * pr + g * otr)) ∧
    (let r := calculate_payroll_amounts "hourly" 5 0 1 0 0 0 0 (1 / 1000)
      (1 / 1000) (1 / 1000) (1 / 1000) 0 0 0
     r.total_deductions = 1 / 50 ∧
     r.tax_amount + r.social_amount + r.pension_amount +
       r.other_deduction_amount = 1 / 25) ∧
    (1 / 50 : ℚ) ≠ 1 / 25 := by
  refine ⟨fun _ _ _ _ _ _ _ _ _ _ _ _ _ _ _ => rfl, ⟨?_, ?_⟩, by norm_num⟩
  · simp +decide only [calculate_payroll_amounts, normalize_pay_type,
      round_money]
    norm_num
  · simp +decide only [calculate_payroll_amounts, normalize_pay_type,
      round_money]
    norm_num

end TimeTracking
